import Mathlib

/-
  Verification of the weather-to-Snowflake ETL pipeline (src/main.py).

  Shallow embedding conventions:
  * HTTP responses are passed in as environment functions: the geocoder
    response is a function of the city name, the weather response a function
    of the latitude/longitude pair interpolated into the weather URL.
  * JSON payloads are modelled structurally.  Fields that the source reads
    with unguarded dictionary lookups (`geo_resp['state']`, `weather_resp['dt']`,
    `weather_resp['main']['temp']`, ...) are `Option` fields; an absent field
    makes the lookup raise, modelled with `Except String` (a Python KeyError
    aborting the loop).
  * Numeric payloads (latitude, longitude, temperatures) are only carried
    through, never computed with, so they are modelled as `Int`.
  * The mutable object state (`self.cities`, `self._errors`, `self.data`,
    the engine) is explicit state passing; `self._errors.append` appends at
    the end of the list, exactly as a Python `list.append`.
-/

set_option autoImplicit false

/-- One entry of `self._errors`: the source appends `[stage, obj, msg]`. -/
structure ErrRec where
  stage : String
  subject : String
  message : String
  deriving Repr, DecidableEq

/-- First element of the geocoder JSON array.  Each field is `Option`al
because the source reads it with an unguarded dict lookup. -/
structure GeoItem where
  country : Option String
  state : Option String
  lat : Option Int
  lon : Option Int
  deriving Repr, DecidableEq

/-- A geocoder HTTP response: status code and parsed JSON array
(`resp.json()` is truthy iff the array is non-empty). -/
structure GeoResp where
  status_code : Nat
  body : List GeoItem
  deriving Repr, DecidableEq

/-- The `main` sub-object of the weather JSON payload. -/
structure WeatherMain where
  temp : Option Int
  temp_max : Option Int
  temp_min : Option Int
  deriving Repr, DecidableEq

/-- The weather JSON payload: `dt` and `main` read by unguarded lookups. -/
structure WeatherBody where
  dt : Option Nat
  main : Option WeatherMain
  deriving Repr, DecidableEq

/-- A weather HTTP response: status code and parsed JSON object
(`resp.json()` is truthy iff the object is present / non-empty). -/
structure WeatherResp where
  status_code : Nat
  body : Option WeatherBody
  deriving Repr, DecidableEq

/-- One element of the `geocode_cities` intermediate list. -/
structure CityDetails where
  country : String
  state : String
  city : String
  lat : Int
  lon : Int
  deriving Repr, DecidableEq

/-- One element of the `weather` result list (a row of the final frame). -/
structure WeatherRow where
  datetime : String
  temp : Int
  temp_high : Int
  temp_low : Int
  country : String
  state : String
  city : String
  lat : Int
  lon : Int
  deriving Repr, DecidableEq

/-- A Python dict lookup `d[key]`: returns the value, or raises `KeyError`
when the key is absent. -/
def dictGet {α : Type} (field : Option α) (key : String) : Except String α :=
  match field with
  | some v => Except.ok v
  | none => Except.error ("KeyError: " ++ key)

/-- The message of a geocoding error record
(`f'Status Code: {resp.status_code}. Could not geolocate.'`). -/
def geoErrMsg (sc : Nat) : String :=
  "Status Code: " ++ toString sc ++ ". Could not geolocate."

/-- The message of a weather-fetch error record
(`f'Status Code: {resp.status_code}. Could not get weather.'`). -/
def weatherErrMsg (sc : Nat) : String :=
  "Status Code: " ++ toString sc ++ ". Could not get weather."

/-- One iteration of the geocoding loop body for `city`: on HTTP 200 with a
non-empty array, build the `geocode_cities` entry from the first element
(each dict lookup may raise); otherwise produce the error record. -/
def processGeocode (geocode : String → GeoResp) (city : String) :
    Except String (CityDetails ⊕ ErrRec) :=
  let resp := geocode city
  match resp.body with
  | g :: _ =>
    if resp.status_code = 200 then do
      let country ← dictGet g.country "country"
      let state ← dictGet g.state "state"
      let lat ← dictGet g.lat "lat"
      let lon ← dictGet g.lon "lon"
      Except.ok (Sum.inl ⟨country, state, city, lat, lon⟩)
    else
      Except.ok (Sum.inr ⟨"Extract", city, geoErrMsg resp.status_code⟩)
  | [] => Except.ok (Sum.inr ⟨"Extract", city, geoErrMsg resp.status_code⟩)

/-- The first loop of `get_weather_data`: geocode every city in order,
collecting `geocode_cities` and appending error records as it goes.  The
error list component is the records appended up to the point of a raised
KeyError, matching the in-place mutation of `self._errors`. -/
def geocodePhase (geocode : String → GeoResp) :
    List String → Except String (List CityDetails) × List ErrRec
  | [] => (Except.ok [], [])
  | c :: cs =>
    match processGeocode geocode c with
    | Except.error e => (Except.error e, [])
    | Except.ok (Sum.inl d) =>
      let (r, es) := geocodePhase geocode cs
      (r.map (fun ds => d :: ds), es)
    | Except.ok (Sum.inr er) =>
      let (r, es) := geocodePhase geocode cs
      (r, er :: es)

/-- Unix seconds → civil UTC date, days computed with the standard
civil-from-days calendar algorithm (`datetime.utcfromtimestamp`). -/
def daysToCivil (z : Nat) : Nat × Nat × Nat :=
  let z' := z + 719468
  let era := z' / 146097
  let doe := z' % 146097
  let yoe := (doe - doe / 1460 + doe / 36524 - doe / 146096) / 365
  let y := yoe + era * 400
  let doy := doe - (365 * yoe + yoe / 4 - yoe / 100)
  let mp := (5 * doy + 2) / 153
  let d := doy - (153 * mp + 2) / 5 + 1
  let m := if mp < 10 then mp + 3 else mp - 9
  (if m ≤ 2 then y + 1 else y, m, d)

/-- Zero-pad a number to two digits (`strftime` `%m`, `%d`, `%H`, `%M`, `%S`). -/
def pad2 (n : Nat) : String :=
  if n < 10 then "0" ++ toString n else toString n

/-- Zero-pad a year to four digits (`strftime` `%Y`). -/
def pad4 (n : Nat) : String :=
  if n < 10 then "000" ++ toString n
  else if n < 100 then "00" ++ toString n
  else if n < 1000 then "0" ++ toString n
  else toString n

/-- `datetime.utcfromtimestamp(t).strftime('%Y-%m-%d %H:%M:%S')` for a
non-negative Unix timestamp `t` in seconds. -/
def fmtUtc (t : Nat) : String :=
  let (y, m, d) := daysToCivil (t / 86400)
  let secs := t % 86400
  pad4 y ++ "-" ++ pad2 m ++ "-" ++ pad2 d ++ " " ++
    pad2 (secs / 3600) ++ ":" ++ pad2 (secs % 3600 / 60) ++ ":" ++ pad2 (secs % 60)

/-- One iteration of the weather loop body for a geocoded city: on HTTP 200
with a truthy JSON body, build the result row (each dict lookup may raise);
otherwise produce the error record. -/
def processWeather (weather : Int → Int → WeatherResp) (d : CityDetails) :
    Except String (WeatherRow ⊕ ErrRec) :=
  let resp := weather d.lat d.lon
  match resp.body with
  | some w =>
    if resp.status_code = 200 then do
      let dt ← dictGet w.dt "dt"
      let mn ← dictGet w.main "main"
      let temp ← dictGet mn.temp "temp"
      let tmax ← dictGet mn.temp_max "temp_max"
      let tmin ← dictGet mn.temp_min "temp_min"
      Except.ok (Sum.inl ⟨fmtUtc dt, temp, tmax, tmin, d.country, d.state, d.city, d.lat, d.lon⟩)
    else
      Except.ok (Sum.inr ⟨"Extract", d.city, weatherErrMsg resp.status_code⟩)
  | none => Except.ok (Sum.inr ⟨"Extract", d.city, weatherErrMsg resp.status_code⟩)

/-- The second loop of `get_weather_data`: fetch weather for every entry of
`geocode_cities` in order, collecting rows and appending error records. -/
def weatherPhase (weather : Int → Int → WeatherResp) :
    List CityDetails → Except String (List WeatherRow) × List ErrRec
  | [] => (Except.ok [], [])
  | d :: ds =>
    match processWeather weather d with
    | Except.error e => (Except.error e, [])
    | Except.ok (Sum.inl row) =>
      let (r, es) := weatherPhase weather ds
      (r.map (fun rows => row :: rows), es)
    | Except.ok (Sum.inr er) =>
      let (r, es) := weatherPhase weather ds
      (r, er :: es)

namespace WeatherToSnowflake

/-- `WeatherToSnowflake.get_weather_data`, as a function of the response
environment: the rows stored into `self.data` (or the uncaught exception)
and the error records appended to `self._errors` during the call. -/
def get_weather_data (geocode : String → GeoResp) (weather : Int → Int → WeatherResp)
    (cities : List String) : Except String (List WeatherRow) × List ErrRec :=
  let (gr, ges) := geocodePhase geocode cities
  match gr with
  | Except.error e => (Except.error e, ges)
  | Except.ok ds =>
    let (wr, wes) := weatherPhase weather ds
    (wr, ges ++ wes)

end WeatherToSnowflake

/-- `resp.status_code == 200 and resp.json()` for a geocoder response. -/
def geoOkB (geocode : String → GeoResp) (c : String) : Bool :=
  (geocode c).status_code == 200 && !(geocode c).body.isEmpty

/-- The `geocode_cities` entry the source builds for `c`, with absent
dict fields defaulted (the defaults are only ever compared under the
hypothesis that no lookup raised). -/
def detailsOf (geocode : String → GeoResp) (c : String) : CityDetails :=
  match (geocode c).body with
  | g :: _ => ⟨g.country.getD "", g.state.getD "", c, g.lat.getD 0, g.lon.getD 0⟩
  | [] => ⟨"", "", c, 0, 0⟩

/-- `resp.status_code == 200 and resp.json()` for a weather response. -/
def wOkB (weather : Int → Int → WeatherResp) (d : CityDetails) : Bool :=
  (weather d.lat d.lon).status_code == 200 && (weather d.lat d.lon).body.isSome

/-- The result row the source builds for a geocoded city, with absent
dict fields defaulted (compared only under a no-raise hypothesis). -/
def rowOf (weather : Int → Int → WeatherResp) (d : CityDetails) : WeatherRow :=
  let b := ((weather d.lat d.lon).body).getD ⟨none, none⟩
  let mn := b.main.getD ⟨none, none, none⟩
  ⟨fmtUtc (b.dt.getD 0), mn.temp.getD 0, mn.temp_max.getD 0, mn.temp_min.getD 0,
    d.country, d.state, d.city, d.lat, d.lon⟩

/-- The error record appended for a failed geocode of `c`. -/
def geoErrOf (geocode : String → GeoResp) (c : String) : ErrRec :=
  ⟨"Extract", c, geoErrMsg (geocode c).status_code⟩

/-- The error record appended for a failed weather fetch for `d`. -/
def wErrOf (weather : Int → Int → WeatherResp) (d : CityDetails) : ErrRec :=
  ⟨"Extract", d.city, weatherErrMsg (weather d.lat d.lon).status_code⟩

/-- City `c` succeeds end to end: the geocode succeeds and the weather
fetch at the extracted coordinates succeeds. -/
def citySuccessB (geocode : String → GeoResp) (weather : Int → Int → WeatherResp)
    (c : String) : Bool :=
  geoOkB geocode c && wOkB weather (detailsOf geocode c)

/-- The `cities` constructor argument: Python lets it be a plain string or a
list of strings. -/
inductive CitiesArg where
  | single : String → CitiesArg
  | list : List String → CitiesArg
  deriving Repr, DecidableEq

/-- `if not isinstance(cities, list): cities = [cities]`. -/
def wrapCities : CitiesArg → List String
  | CitiesArg.single c => [c]
  | CitiesArg.list cs => cs

/-- The mutable fields of a `WeatherToSnowflake` object other than the
engine handle: `self.cities`, `self._errors`, `self.data`. -/
structure WtsState where
  cities : List String
  errors : List ErrRec
  data : Option (List WeatherRow)
  deriving Repr, DecidableEq

/-- The Snowflake engine handle: the destination table's rows and whether
`dispose()` has been called. -/
structure SfEngine where
  table : List WeatherRow
  disposed : Bool
  deriving Repr, DecidableEq

namespace WeatherToSnowflake

/-- `WeatherToSnowflake.__init__` (the engine handle is kept separately). -/
def init (cities : CitiesArg) : WtsState :=
  ⟨wrapCities cities, [], none⟩

/-- `WeatherToSnowflake.log_error`: appends `[stage, obj, msg]` to `self._errors`. -/
def log_error (s : WtsState) (stage obj msg : String) : WtsState :=
  { s with errors := s.errors ++ [⟨stage, obj, msg⟩] }

/-- `get_weather_data` as an operation on the object state: stores the rows
into `self.data` and appends the produced error records to `self._errors`;
a raised KeyError leaves the records appended before the raise. -/
def get_weather_data_op (geocode : String → GeoResp) (weather : Int → Int → WeatherResp)
    (s : WtsState) : Except String Unit × WtsState :=
  match get_weather_data geocode weather s.cities with
  | (Except.ok rows, es) => (Except.ok (), { s with data := some rows, errors := s.errors ++ es })
  | (Except.error e, es) => (Except.error e, { s with errors := s.errors ++ es })

/-- `WeatherToSnowflake.transform`: declared extension point, a no-op. -/
def transform (s : WtsState) : WtsState := s

/-- `WeatherToSnowflake.close_connection`: `self.snowflake_engine.dispose()`. -/
def close_connection (e : SfEngine) : SfEngine :=
  { e with disposed := true }

end WeatherToSnowflake

/-- Modelled from the spec: `pandas.DataFrame.to_sql` with
`if_exists='append'` and `method=pd_writer` is library code not under
`src/`.  Per the spec's Loader section it appends the result set's rows to
the destination table (an empty set is a valid degenerate append of zero
rows), and a write-time error (bad connection, schema mismatch) propagates
uncaught; `writeOk` is that environmental condition. -/
def to_sql_append (writeOk : Bool) (e : SfEngine) (rows : List WeatherRow) :
    Except String SfEngine :=
  if writeOk then Except.ok { e with table := e.table ++ rows }
  else Except.error "write error"

namespace WeatherToSnowflake

/-- `WeatherToSnowflake.load_df_to_sf`: `self.data.to_sql(..., if_exists='append', ...)`. -/
def load_df_to_sf (writeOk : Bool) (e : SfEngine) (rows : List WeatherRow) :
    Except String SfEngine :=
  to_sql_append writeOk e rows

/-- `WeatherToSnowflake.__call__`: extract, transform, load, then dispose,
each stage run only if the previous one did not raise; an uncaught
exception is returned with the object and engine state at the raise. -/
def call (writeOk : Bool) (geocode : String → GeoResp) (weather : Int → Int → WeatherResp)
    (s : WtsState) (e : SfEngine) : Except String Unit × WtsState × SfEngine :=
  match get_weather_data_op geocode weather s with
  | (Except.error msg, s1) => (Except.error msg, s1, e)
  | (Except.ok (), s1) =>
    let s2 := transform s1
    match load_df_to_sf writeOk e (s2.data.getD []) with
    | Except.error msg => (Except.error msg, s2, e)
    | Except.ok e1 => (Except.ok (), s2, close_connection e1)

end WeatherToSnowflake

/-- The process environment and filesystem state read by
`get_snowflake_engine`: the token file's contents when
`/snowflake/session/token` exists, and `os.getenv` results (`none` when the
variable is unset). -/
structure SfEnv where
  tokenFile : Option String
  snowflakeAccount : Option String
  snowflakeHost : Option String
  snowflakeUsername : Option String
  snowflakePassword : Option String
  deriving Repr, DecidableEq

/-- The keyword arguments passed to `snowflake.sqlalchemy.URL`: `none`
means the argument is not passed. -/
structure EngineURL where
  account : Option String
  host : Option String
  user : Option String
  password : Option String
  authenticator : Option String
  token : Option String
  role : Option String
  warehouse : Option String
  database : Option String
  schema : Option String
  deriving Repr, DecidableEq

/-- `get_login_token`: reads `/snowflake/session/token` (only called when
the file exists). -/
def get_login_token (env : SfEnv) : Option String :=
  env.tokenFile

/-- `get_snowflake_engine`: branches on `os.path.exists("/snowflake/session/token")`
and builds the `URL(...)` keyword set for `create_engine`. -/
def get_snowflake_engine (env : SfEnv)
    (snowflake_database snowflake_schema snowflake_warehouse snowflake_role : String) :
    EngineURL :=
  if env.tokenFile.isSome then
    { account := env.snowflakeAccount
      host := env.snowflakeHost
      user := none
      password := none
      authenticator := some "oauth"
      token := get_login_token env
      role := none
      warehouse := some snowflake_warehouse
      database := some snowflake_database
      schema := some snowflake_schema }
  else
    { account := env.snowflakeAccount
      host := none
      user := env.snowflakeUsername
      password := env.snowflakePassword
      authenticator := none
      token := none
      role := some snowflake_role
      warehouse := some snowflake_warehouse
      database := some snowflake_database
      schema := some snowflake_schema }

/-- A sample geocoder environment for concrete instances: Montreal and
Chicago geocode successfully, Denver's first hit lacks the `state` key, and
any other city yields a 200 with an empty array. -/
def gDemo : String → GeoResp := fun c =>
  if c = "Montreal" then ⟨200, [⟨some "CA", some "Quebec", some 45, some (-73)⟩]⟩
  else if c = "Chicago" then ⟨200, [⟨some "US", some "Illinois", some 41, some (-87)⟩]⟩
  else if c = "Denver" then ⟨200, [⟨some "US", none, some 39, some (-104)⟩]⟩
  else ⟨200, []⟩

/-- A sample weather environment: Montreal's latitude gives a full response
at Unix time 1700000000; any other coordinate fails with a 404. -/
def wDemo : Int → Int → WeatherResp := fun la _ =>
  if la = 45 then ⟨200, some ⟨some 1700000000, some ⟨some 280, some 282, some 278⟩⟩⟩
  else ⟨404, none⟩

/-- The row the pipeline builds for Montreal under `gDemo`/`wDemo`. -/
def rowMontreal : WeatherRow :=
  ⟨"2023-11-14 22:13:20", 280, 282, 278, "CA", "Quebec", "Montreal", 45, -73⟩

/-! ### Structural lemmas about the two extraction loops -/

theorem processGeocode_inl {g : String → GeoResp} {c : String} {d : CityDetails}
    (h : processGeocode g c = Except.ok (Sum.inl d)) :
    geoOkB g c = true ∧ d = detailsOf g c := by
  simp only [processGeocode] at h
  unfold geoOkB detailsOf
  rcases hb : (g c).body with _ | ⟨gi, rest⟩ <;> rw [hb] at h
  · simp at h
  · rcases hco : gi.country with _ | co <;>
    rcases hst : gi.state with _ | st <;>
    rcases hla : gi.lat with _ | la <;>
    rcases hlo : gi.lon with _ | lo <;>
    by_cases hs : (g c).status_code = 200 <;>
    simp_all [dictGet, Bind.bind, Except.bind]

theorem processGeocode_inr {g : String → GeoResp} {c : String} {er : ErrRec}
    (h : processGeocode g c = Except.ok (Sum.inr er)) :
    geoOkB g c = false ∧ er = geoErrOf g c := by
  simp only [processGeocode] at h
  unfold geoOkB geoErrOf
  rcases hb : (g c).body with _ | ⟨gi, rest⟩ <;> rw [hb] at h
  · simp only [Except.ok.injEq, Sum.inr.injEq] at h
    subst h
    simp
  · rcases hco : gi.country with _ | co <;>
    rcases hst : gi.state with _ | st <;>
    rcases hla : gi.lat with _ | la <;>
    rcases hlo : gi.lon with _ | lo <;>
    by_cases hs : (g c).status_code = 200 <;>
    simp_all [dictGet, Bind.bind, Except.bind]

theorem geocodePhase_ok {g : String → GeoResp} :
    ∀ {cs : List String} {ds : List CityDetails} {es : List ErrRec},
      geocodePhase g cs = (Except.ok ds, es) →
      ds = (cs.filter (geoOkB g)).map (detailsOf g) ∧
      es = (cs.filter (fun c => !geoOkB g c)).map (geoErrOf g) := by
  intro cs
  induction cs with
  | nil =>
    intro ds es h
    simp [geocodePhase] at h
    simp [h.1.symm, h.2.symm]
  | cons c cs ih =>
    intro ds es h
    rw [geocodePhase] at h
    rcases hp : processGeocode g c with e | d_or_er
    · rw [hp] at h; simp at h
    · rcases d_or_er with d | er <;> rw [hp] at h
      · rcases hrec : geocodePhase g cs with ⟨r, es'⟩
        rw [hrec] at h
        simp at h
        rcases r with e' | ds' <;> simp [Except.map] at h
        obtain ⟨hds, hes⟩ := h
        obtain ⟨hok, hd⟩ := processGeocode_inl hp
        obtain ⟨ih1, ih2⟩ := ih hrec
        subst hds hes hd ih1 ih2
        simp [hok]
      · rcases hrec : geocodePhase g cs with ⟨r, es'⟩
        rw [hrec] at h
        simp at h
        rcases r with e' | ds' <;> simp at h
        obtain ⟨hds, hes⟩ := h
        obtain ⟨hok, her⟩ := processGeocode_inr hp
        obtain ⟨ih1, ih2⟩ := ih hrec
        subst hds hes her ih1 ih2
        simp [hok]

theorem processWeather_inl {w : Int → Int → WeatherResp} {d : CityDetails} {row : WeatherRow}
    (h : processWeather w d = Except.ok (Sum.inl row)) :
    wOkB w d = true ∧ row = rowOf w d := by
  simp only [processWeather] at h
  unfold wOkB rowOf
  rcases hb : (w d.lat d.lon).body with _ | wb <;> rw [hb] at h
  · simp at h
  · rcases hdt : wb.dt with _ | dt <;>
    rcases hmn : wb.main with _ | mn <;>
    by_cases hs : (w d.lat d.lon).status_code = 200
    all_goals
      try (rcases htp : mn.temp with _ | tp <;>
           rcases hmx : mn.temp_max with _ | mx <;>
           rcases hmi : mn.temp_min with _ | mi)
    all_goals simp_all [dictGet, Bind.bind, Except.bind]

theorem processWeather_inr {w : Int → Int → WeatherResp} {d : CityDetails} {er : ErrRec}
    (h : processWeather w d = Except.ok (Sum.inr er)) :
    wOkB w d = false ∧ er = wErrOf w d := by
  simp only [processWeather] at h
  unfold wOkB wErrOf
  rcases hb : (w d.lat d.lon).body with _ | wb <;> rw [hb] at h
  · simp only [Except.ok.injEq, Sum.inr.injEq] at h
    subst h
    simp
  · rcases hdt : wb.dt with _ | dt <;>
    rcases hmn : wb.main with _ | mn <;>
    by_cases hs : (w d.lat d.lon).status_code = 200
    all_goals
      try (rcases htp : mn.temp with _ | tp <;>
           rcases hmx : mn.temp_max with _ | mx <;>
           rcases hmi : mn.temp_min with _ | mi)
    all_goals simp_all [dictGet, Bind.bind, Except.bind]

theorem weatherPhase_ok {w : Int → Int → WeatherResp} :
    ∀ {ds : List CityDetails} {rows : List WeatherRow} {es : List ErrRec},
      weatherPhase w ds = (Except.ok rows, es) →
      rows = (ds.filter (wOkB w)).map (rowOf w) ∧
      es = (ds.filter (fun d => !wOkB w d)).map (wErrOf w) := by
  intro ds
  induction ds with
  | nil =>
    intro rows es h
    simp [weatherPhase] at h
    simp [h.1.symm, h.2.symm]
  | cons d ds ih =>
    intro rows es h
    rw [weatherPhase] at h
    rcases hp : processWeather w d with e | row_or_er
    · rw [hp] at h; simp at h
    · rcases row_or_er with row | er <;> rw [hp] at h
      · rcases hrec : weatherPhase w ds with ⟨r, es'⟩
        rw [hrec] at h
        simp at h
        rcases r with e' | rows' <;> simp [Except.map] at h
        obtain ⟨hrows, hes⟩ := h
        obtain ⟨hok, hrow⟩ := processWeather_inl hp
        obtain ⟨ih1, ih2⟩ := ih hrec
        subst hrows hes hrow ih1 ih2
        simp [hok]
      · rcases hrec : weatherPhase w ds with ⟨r, es'⟩
        rw [hrec] at h
        simp at h
        rcases r with e' | rows' <;> simp at h
        obtain ⟨hrows, hes⟩ := h
        obtain ⟨hok, her⟩ := processWeather_inr hp
        obtain ⟨ih1, ih2⟩ := ih hrec
        subst hrows hes her ih1 ih2
        simp [hok]

theorem get_weather_data_ok {g : String → GeoResp} {w : Int → Int → WeatherResp}
    {cities : List String} {rows : List WeatherRow} {errs : List ErrRec}
    (h : WeatherToSnowflake.get_weather_data g w cities = (Except.ok rows, errs)) :
    rows = (((cities.filter (geoOkB g)).map (detailsOf g)).filter (wOkB w)).map (rowOf w) ∧
    errs = (cities.filter (fun c => !geoOkB g c)).map (geoErrOf g) ++
      (((cities.filter (geoOkB g)).map (detailsOf g)).filter (fun d => !wOkB w d)).map (wErrOf w) := by
  simp only [WeatherToSnowflake.get_weather_data] at h
  rcases hgeo : geocodePhase g cities with ⟨gr, ges⟩
  rw [hgeo] at h
  rcases gr with e | ds
  · simp at h
  · dsimp only at h
    rcases hw : weatherPhase w ds with ⟨wr, wes⟩
    rw [hw] at h
    simp at h
    rcases wr with e' | rows'
    · simp at h
    · simp at h
      obtain ⟨hr, he⟩ := h
      obtain ⟨hds, hges⟩ := geocodePhase_ok hgeo
      obtain ⟨hrows, hwes⟩ := weatherPhase_ok hw
      subst hds hges hrows hwes hr he
      exact ⟨rfl, rfl⟩

/-! ### Small field lemmas -/

theorem rowOf_city (w : Int → Int → WeatherResp) (d : CityDetails) :
    (rowOf w d).city = d.city := rfl

theorem detailsOf_city (g : String → GeoResp) (c : String) :
    (detailsOf g c).city = c := by
  unfold detailsOf
  cases hb : (g c).body <;> rfl

theorem get_weather_data_op_errors (g : String → GeoResp) (w : Int → Int → WeatherResp)
    (s : WtsState) :
    ∃ t, ((WeatherToSnowflake.get_weather_data_op g w s).2).errors = s.errors ++ t := by
  unfold WeatherToSnowflake.get_weather_data_op
  rcases WeatherToSnowflake.get_weather_data g w s.cities with ⟨r, es⟩
  rcases r with e' | rows <;> exact ⟨es, rfl⟩

/-! ### Claims -/

/-- C9: the constructor accepts a non-list `cities` argument and wraps it in
a singleton list, so a single city string behaves identically to the
one-element list of that city, and `self.cities` is always a list. -/
theorem claim_c9_single_city_wrapped (c : String) :
    WeatherToSnowflake.init (CitiesArg.single c) = WeatherToSnowflake.init (CitiesArg.list [c]) ∧
    (WeatherToSnowflake.init (CitiesArg.single c)).cities = [c] :=
  ⟨rfl, rfl⟩

/-- C10: a geocode response with HTTP 200 and a non-empty array whose first
element lacks the `state` key makes the unguarded lookup raise: the
KeyError propagates out of `get_weather_data` with no per-item error record
appended, and the orchestrated run aborts with it. -/
theorem claim_c10_missing_state_aborts (g : String → GeoResp) (w : Int → Int → WeatherResp)
    (c : String) (gi : GeoItem) (rest : List GeoItem)
    (hb : (g c).body = gi :: rest) (hs : (g c).status_code = 200)
    (hco : gi.country.isSome = true) (hst : gi.state = none) :
    WeatherToSnowflake.get_weather_data g w [c] = (Except.error "KeyError: state", []) ∧
    (WeatherToSnowflake.call true g w (WeatherToSnowflake.init (CitiesArg.single c)) ⟨[], false⟩).1 =
      Except.error "KeyError: state" := by
  obtain ⟨co, hco'⟩ := Option.isSome_iff_exists.mp hco
  have hpg : processGeocode g c = Except.error "KeyError: state" := by
    simp [processGeocode, hb, hs, hco', hst, dictGet, Bind.bind, Except.bind]
  have hgp : geocodePhase g [c] = (Except.error "KeyError: state", []) := by
    simp [geocodePhase, hpg]
  constructor
  · simp [WeatherToSnowflake.get_weather_data, hgp]
  · simp [WeatherToSnowflake.call, WeatherToSnowflake.get_weather_data_op,
      WeatherToSnowflake.init, wrapCities, WeatherToSnowflake.get_weather_data, hgp]

theorem claim_c10_witness :
    WeatherToSnowflake.get_weather_data gDemo wDemo ["Denver"] =
      (Except.error "KeyError: state", []) ∧
    (WeatherToSnowflake.call true gDemo wDemo
        (WeatherToSnowflake.init (CitiesArg.single "Denver")) ⟨[], false⟩).1 =
      Except.error "KeyError: state" :=
  claim_c10_missing_state_aborts gDemo wDemo "Denver"
    ⟨some "US", none, some 39, some (-104)⟩ [] rfl rfl rfl rfl

/-- C5: a weather response whose `dt` field is 1700000000 produces the
DATETIME string "2023-11-14 22:13:20", the UTC calendar rendering of that
Unix time in the `%Y-%m-%d %H:%M:%S` format. -/
theorem claim_c5_datetime_format (w : Int → Int → WeatherResp) (d : CityDetails)
    (wb : WeatherBody) (row : WeatherRow)
    (hb : (w d.lat d.lon).body = some wb) (hdt : wb.dt = some 1700000000)
    (h : processWeather w d = Except.ok (Sum.inl row)) :
    row.datetime = "2023-11-14 22:13:20" := by
  obtain ⟨-, hrow⟩ := processWeather_inl h
  subst hrow
  simp [rowOf, hb, hdt]
  rfl

theorem claim_c5_witness : rowMontreal.datetime = "2023-11-14 22:13:20" :=
  claim_c5_datetime_format wDemo ⟨"CA", "Quebec", "Montreal", 45, -73⟩
    ⟨some 1700000000, some ⟨some 280, some 282, some 278⟩⟩ rowMontreal rfl rfl rfl

/-- C6: when the extract phase produced an empty result set, the load stage
does not raise: it performs a degenerate append of zero rows (leaving the
table as it was) and the run completes. -/
theorem claim_c6_empty_load_ok (e : SfEngine) (g : String → GeoResp)
    (w : Int → Int → WeatherResp) (s : WtsState)
    (hempty : (WeatherToSnowflake.get_weather_data g w s.cities).1 = Except.ok []) :
    WeatherToSnowflake.load_df_to_sf true e [] = Except.ok e ∧
    (WeatherToSnowflake.call true g w s e).1 = Except.ok () := by
  constructor
  · simp [WeatherToSnowflake.load_df_to_sf, to_sql_append]
  · rcases hr : WeatherToSnowflake.get_weather_data g w s.cities with ⟨r, es⟩
    rw [hr] at hempty
    simp at hempty
    subst hempty
    simp [WeatherToSnowflake.call, WeatherToSnowflake.get_weather_data_op, hr,
      WeatherToSnowflake.transform, WeatherToSnowflake.load_df_to_sf, to_sql_append,
      WeatherToSnowflake.close_connection]

theorem claim_c6_witness :
    WeatherToSnowflake.load_df_to_sf true ⟨[], false⟩ [] = Except.ok ⟨[], false⟩ ∧
    (WeatherToSnowflake.call true gDemo wDemo
        (WeatherToSnowflake.init (CitiesArg.list ["Nowhere123"])) ⟨[], false⟩).1 =
      Except.ok () :=
  claim_c6_empty_load_ok ⟨[], false⟩ gDemo wDemo
    (WeatherToSnowflake.init (CitiesArg.list ["Nowhere123"])) rfl

/-- C7: `get_snowflake_engine` selects its auth mode solely by the presence
of the token file: with the file it passes account + host + oauth token and
no user/password/role; without it it passes account + username + password +
role and no host/token/authenticator. -/
theorem claim_c7_auth_mode_by_token_file (env : SfEnv) (db sch wh role : String) :
    (env.tokenFile.isSome = true →
      (get_snowflake_engine env db sch wh role).account = env.snowflakeAccount ∧
      (get_snowflake_engine env db sch wh role).host = env.snowflakeHost ∧
      (get_snowflake_engine env db sch wh role).authenticator = some "oauth" ∧
      (get_snowflake_engine env db sch wh role).token = get_login_token env ∧
      (get_snowflake_engine env db sch wh role).user = none ∧
      (get_snowflake_engine env db sch wh role).password = none ∧
      (get_snowflake_engine env db sch wh role).role = none) ∧
    (env.tokenFile = none →
      (get_snowflake_engine env db sch wh role).account = env.snowflakeAccount ∧
      (get_snowflake_engine env db sch wh role).user = env.snowflakeUsername ∧
      (get_snowflake_engine env db sch wh role).password = env.snowflakePassword ∧
      (get_snowflake_engine env db sch wh role).role = some role ∧
      (get_snowflake_engine env db sch wh role).host = none ∧
      (get_snowflake_engine env db sch wh role).token = none ∧
      (get_snowflake_engine env db sch wh role).authenticator = none) := by
  constructor
  · intro h
    simp [get_snowflake_engine, h]
  · intro h
    simp [get_snowflake_engine, h, get_login_token]

theorem claim_c7_witness :
    (get_snowflake_engine ⟨some "tok", some "acct", some "host", some "u", some "pw"⟩
        "db" "sch" "wh" "r").user = none ∧
    (get_snowflake_engine ⟨none, some "acct", some "host", some "u", some "pw"⟩
        "db" "sch" "wh" "r").role = some "r" :=
  ⟨((claim_c7_auth_mode_by_token_file ⟨some "tok", some "acct", some "host", some "u", some "pw"⟩
      "db" "sch" "wh" "r").1 rfl).2.2.2.2.1,
   ((claim_c7_auth_mode_by_token_file ⟨none, some "acct", some "host", some "u", some "pw"⟩
      "db" "sch" "wh" "r").2 rfl).2.2.2.1⟩

/-- C8: the error list is append-only: `log_error` appends one record at
the end, `get_weather_data` only appends records, `transform` leaves the
list unchanged, and a whole `__call__` run only appends, so the error list
at any point is a prefix of the error list at every later point. -/
theorem claim_c8_errors_append_only (s : WtsState) (stage obj msg : String)
    (g : String → GeoResp) (w : Int → Int → WeatherResp) (writeOk : Bool) (e : SfEngine) :
    (WeatherToSnowflake.log_error s stage obj msg).errors = s.errors ++ [⟨stage, obj, msg⟩] ∧
    (∃ t, ((WeatherToSnowflake.get_weather_data_op g w s).2).errors = s.errors ++ t) ∧
    (WeatherToSnowflake.transform s).errors = s.errors ∧
    (∃ t, ((WeatherToSnowflake.call writeOk g w s e).2.1).errors = s.errors ++ t) := by
  refine ⟨rfl, get_weather_data_op_errors g w s, rfl, ?_⟩
  obtain ⟨t, ht⟩ := get_weather_data_op_errors g w s
  refine ⟨t, ?_⟩
  unfold WeatherToSnowflake.call
  rcases hop : WeatherToSnowflake.get_weather_data_op g w s with ⟨r1, s1⟩
  rw [hop] at ht
  dsimp at ht
  rcases r1 with e1 | u
  · exact ht
  · cases u
    dsimp
    rcases WeatherToSnowflake.load_df_to_sf writeOk e
        ((WeatherToSnowflake.transform s1).data.getD []) with e2 | e3 <;>
      exact ht

/-- C4 counterexample: on a run whose load stage raises a write-time error,
the engine is left undisposed, so the handle is not disposed on every exit
path as the claim states. -/
theorem claim_c4_counterexample :
    (WeatherToSnowflake.call false gDemo wDemo
        (WeatherToSnowflake.init (CitiesArg.list ["Montreal"])) ⟨[], false⟩).1 =
      Except.error "write error" ∧
    ((WeatherToSnowflake.call false gDemo wDemo
        (WeatherToSnowflake.init (CitiesArg.list ["Montreal"])) ⟨[], false⟩).2.2).disposed = false :=
  ⟨rfl, rfl⟩

/-- C4 (amended): the connection handle is disposed after load only on the
successful path; when the run raises (in extract or in load) the exception
propagates and the engine is returned exactly as it was, undisposed if it
started undisposed. -/
theorem claim_c4_dispose_only_on_success (writeOk : Bool) (g : String → GeoResp)
    (w : Int → Int → WeatherResp) (s : WtsState) (e : SfEngine) :
    ((WeatherToSnowflake.call writeOk g w s e).1 = Except.ok () →
      ((WeatherToSnowflake.call writeOk g w s e).2.2).disposed = true) ∧
    ((WeatherToSnowflake.call writeOk g w s e).1 ≠ Except.ok () →
      (WeatherToSnowflake.call writeOk g w s e).2.2 = e) := by
  unfold WeatherToSnowflake.call
  rcases WeatherToSnowflake.get_weather_data_op g w s with ⟨r1, s1⟩
  rcases r1 with e1 | u
  · dsimp
    exact ⟨fun h => absurd h (by simp), fun _ => rfl⟩
  · cases u
    dsimp
    rcases WeatherToSnowflake.load_df_to_sf writeOk e
        ((WeatherToSnowflake.transform s1).data.getD []) with e2 | e3
    · dsimp
      exact ⟨fun h => absurd h (by simp), fun _ => rfl⟩
    · dsimp
      exact ⟨fun _ => rfl, fun h => absurd rfl h⟩

theorem claim_c4_witness :
    ((WeatherToSnowflake.call true gDemo wDemo
        (WeatherToSnowflake.init (CitiesArg.list ["Montreal"])) ⟨[], false⟩).2.2).disposed = true :=
  (claim_c4_dispose_only_on_success true gDemo wDemo
      (WeatherToSnowflake.init (CitiesArg.list ["Montreal"])) ⟨[], false⟩).1 rfl

theorem map_city_filter_details (g : String → GeoResp) (w : Int → Int → WeatherResp) :
    ∀ l : List String,
      ((((l.map (detailsOf g)).filter (wOkB w)).map (rowOf w)).map (fun r => r.city)) =
        l.filter (fun c => wOkB w (detailsOf g c)) := by
  intro l
  induction l with
  | nil => rfl
  | cons c l ih =>
    by_cases hw : wOkB w (detailsOf g c) = true <;>
      simp [List.filter_cons, hw, ih, rowOf_city, detailsOf_city]

/-- C1: under any assignment of geocode and weather responses, a run of
`get_weather_data` that completes without an uncaught exception produces
exactly one row per city whose geocode and weather fetch both succeeded,
in the input city order with the failed cities removed. -/
theorem claim_c1_rows_in_input_order (g : String → GeoResp) (w : Int → Int → WeatherResp)
    (cities : List String) (rows : List WeatherRow) (errs : List ErrRec)
    (h : WeatherToSnowflake.get_weather_data g w cities = (Except.ok rows, errs)) :
    rows.map (fun r => r.city) = cities.filter (citySuccessB g w) := by
  obtain ⟨hr, -⟩ := get_weather_data_ok h
  subst hr
  rw [map_city_filter_details, List.filter_filter]
  exact List.filter_congr (fun c _ => by simp [citySuccessB, Bool.and_comm])

theorem claim_c1_witness :
    ([rowMontreal].map (fun r => r.city)) =
      (["Montreal", "Nowhere123", "Chicago"].filter (citySuccessB gDemo wDemo)) :=
  claim_c1_rows_in_input_order gDemo wDemo ["Montreal", "Nowhere123", "Chicago"]
    [rowMontreal]
    [⟨"Extract", "Nowhere123", "Status Code: 200. Could not geolocate."⟩,
     ⟨"Extract", "Chicago", "Status Code: 404. Could not get weather."⟩] rfl

/-- C2: if city `X` (appearing once in the input) fails its geocode lookup,
a successful run appends exactly one error record whose stage is "Extract"
and subject is `X`, keeps `X` out of the `geocode_cities` list that feeds
the weather loop, and produces no row for `X`. -/
theorem claim_c2_geocode_failure_isolated (g : String → GeoResp) (w : Int → Int → WeatherResp)
    (cities : List String) (X : String) (rows : List WeatherRow) (errs : List ErrRec)
    (h : WeatherToSnowflake.get_weather_data g w cities = (Except.ok rows, errs))
    (hfail : geoOkB g X = false) (hX : cities.count X = 1) :
    errs.countP (fun e => e.stage == "Extract" && e.subject == X) = 1 ∧
    ((cities.filter (geoOkB g)).map (detailsOf g)).countP (fun d => d.city == X) = 0 ∧
    rows.countP (fun r => r.city == X) = 0 := by
  obtain ⟨hr, he⟩ := get_weather_data_ok h
  subst hr he
  have hds : ((cities.filter (geoOkB g)).map (detailsOf g)).countP (fun d => d.city == X) = 0 := by
    rw [List.countP_eq_zero]
    intro d hd
    obtain ⟨c, hc, rfl⟩ := List.mem_map.mp hd
    obtain ⟨-, hok⟩ := List.mem_filter.mp hc
    rw [detailsOf_city]
    intro hcx
    rw [beq_iff_eq] at hcx
    subst hcx
    rw [hfail] at hok
    simp at hok
  refine ⟨?_, hds, ?_⟩
  · rw [List.countP_append]
    have h2 : (((((cities.filter (geoOkB g)).map (detailsOf g)).filter
        (fun d => !wOkB w d)).map (wErrOf w)).countP
          (fun e => e.stage == "Extract" && e.subject == X)) = 0 := by
      rw [List.countP_eq_zero]
      intro er her
      obtain ⟨d, hdmem, rfl⟩ := List.mem_map.mp her
      obtain ⟨hdmem', -⟩ := List.mem_filter.mp hdmem
      have : ¬((fun d => d.city == X) d = true) :=
        List.countP_eq_zero.mp hds d hdmem'
      simp only [wErrOf]
      intro hcontra
      simp only [Bool.and_eq_true, beq_iff_eq] at hcontra
      exact this (by simp [hcontra.2])
    rw [h2, Nat.add_zero, List.countP_map]
    have hcongr : ((cities.filter (fun c => !geoOkB g c)).countP
        ((fun e => e.stage == "Extract" && e.subject == X) ∘ geoErrOf g)) =
        ((cities.filter (fun c => !geoOkB g c)).countP (fun c => c == X)) :=
      List.countP_congr (fun c _ => by simp [geoErrOf, Function.comp])
    rw [hcongr, List.countP_filter]
    have hcongr2 : (cities.countP (fun c => (c == X) && !geoOkB g c)) =
        (cities.countP (fun c => c == X)) := by
      refine List.countP_congr (fun c _ => ?_)
      constructor
      · intro hc
        simp only [Bool.and_eq_true] at hc
        exact hc.1
      · intro hc
        rw [beq_iff_eq] at hc
        subst hc
        simp [hfail]
    rw [hcongr2]
    exact hX
  · rw [List.countP_eq_zero]
    intro r hrmem
    obtain ⟨d, hdmem, rfl⟩ := List.mem_map.mp hrmem
    obtain ⟨hdmem', -⟩ := List.mem_filter.mp hdmem
    have := List.countP_eq_zero.mp hds d hdmem'
    rw [rowOf_city]
    exact this

theorem claim_c2_witness :
    ([⟨"Extract", "Nowhere123", "Status Code: 200. Could not geolocate."⟩,
      ⟨"Extract", "Chicago", "Status Code: 404. Could not get weather."⟩] :
        List ErrRec).countP (fun e => e.stage == "Extract" && e.subject == "Nowhere123") = 1 ∧
    (((["Montreal", "Nowhere123", "Chicago"].filter (geoOkB gDemo)).map
        (detailsOf gDemo)).countP (fun d => d.city == "Nowhere123")) = 0 ∧
    ([rowMontreal].countP (fun r => r.city == "Nowhere123")) = 0 :=
  claim_c2_geocode_failure_isolated gDemo wDemo ["Montreal", "Nowhere123", "Chicago"]
    "Nowhere123" [rowMontreal]
    [⟨"Extract", "Nowhere123", "Status Code: 200. Could not geolocate."⟩,
     ⟨"Extract", "Chicago", "Status Code: 404. Could not get weather."⟩]
    rfl rfl rfl

theorem filter_wOk_erase (g : String → GeoResp) (w : Int → Int → WeatherResp) (X : String)
    (hw : wOkB w (detailsOf g X) = false) :
    ∀ l : List String,
      (((l.filter (fun c => !(c == X))).map (detailsOf g)).filter (wOkB w)) =
        ((l.map (detailsOf g)).filter (wOkB w)) := by
  intro l
  rw [List.filter_map, List.filter_filter, List.filter_map]
  refine congrArg (List.map (detailsOf g)) (List.filter_congr (fun c _ => ?_))
  by_cases hc : c = X
  · subst hc
    simp [Function.comp, hw]
  · simp [Function.comp, hc]

theorem geoErr_filter_erase (g : String → GeoResp) (X : String) :
    ∀ l : List String,
      List.map (geoErrOf g) ((l.filter (fun c => !(c == X))).filter (fun c => !geoOkB g c)) =
        (List.map (geoErrOf g) (l.filter (fun c => !geoOkB g c))).filter
          (fun e => !(e.subject == X)) := by
  intro l
  rw [List.filter_filter, List.filter_map, List.filter_filter]
  refine congrArg (List.map (geoErrOf g)) (List.filter_congr (fun c _ => ?_))
  simp only [Function.comp_apply, geoErrOf]
  exact Bool.and_comm _ _

theorem wErr_filter_erase (g : String → GeoResp) (w : Int → Int → WeatherResp) (X : String) :
    ∀ l : List String,
      List.map (wErrOf w) (((l.filter (fun c => !(c == X))).map (detailsOf g)).filter
          (fun d => !wOkB w d)) =
        (List.map (wErrOf w) ((l.map (detailsOf g)).filter (fun d => !wOkB w d))).filter
          (fun e => !(e.subject == X)) := by
  intro l
  rw [List.filter_map, List.filter_filter, List.filter_map, List.filter_filter,
    List.filter_map]
  refine congrArg (List.map (wErrOf w)) (congrArg (List.map (detailsOf g))
    (List.filter_congr (fun c _ => ?_)))
  simp only [Function.comp_apply, wErrOf, detailsOf_city]
  exact Bool.and_comm _ _

/-- C3: if geocoded city `X` (appearing once in the input) fails its weather
fetch, a successful run appends exactly one error record with stage
"Extract" and subject `X` and produces no row for `X`, while the rows and
error records are exactly those of the run on the input with `X` removed
(no error coupling across cities). -/
theorem claim_c3_weather_failure_isolated (g : String → GeoResp) (w : Int → Int → WeatherResp)
    (cities : List String) (X : String)
    (rows rows2 : List WeatherRow) (errs errs2 : List ErrRec)
    (h1 : WeatherToSnowflake.get_weather_data g w cities = (Except.ok rows, errs))
    (h2 : WeatherToSnowflake.get_weather_data g w (cities.filter (fun c => !(c == X))) =
      (Except.ok rows2, errs2))
    (hgeo : geoOkB g X = true) (hw : wOkB w (detailsOf g X) = false)
    (hX : cities.count X = 1) :
    errs.countP (fun e => e.stage == "Extract" && e.subject == X) = 1 ∧
    rows.countP (fun r => r.city == X) = 0 ∧
    rows2 = rows ∧
    errs2 = errs.filter (fun e => !(e.subject == X)) := by
  obtain ⟨hr1, he1⟩ := get_weather_data_ok h1
  obtain ⟨hr2, he2⟩ := get_weather_data_ok h2
  subst hr1 he1 hr2 he2
  have hcomm : ((cities.filter (fun c => !(c == X))).filter (geoOkB g)) =
      ((cities.filter (geoOkB g)).filter (fun c => !(c == X))) := by
    rw [List.filter_filter, List.filter_filter]
    exact List.filter_congr (fun c _ => Bool.and_comm _ _)
  refine ⟨?_, ?_, ?_, ?_⟩
  · rw [List.countP_append]
    have hgeoZero : (List.map (geoErrOf g) (cities.filter (fun c => !geoOkB g c))).countP
        (fun e => e.stage == "Extract" && e.subject == X) = 0 := by
      rw [List.countP_eq_zero]
      intro er her
      obtain ⟨c, hc, rfl⟩ := List.mem_map.mp her
      obtain ⟨-, hnok⟩ := List.mem_filter.mp hc
      intro hp
      simp only [geoErrOf, Bool.and_eq_true, beq_iff_eq] at hp
      obtain ⟨-, rfl⟩ := hp
      rw [hgeo] at hnok
      simp at hnok
    have hwCount : (List.map (wErrOf w) (((cities.filter (geoOkB g)).map (detailsOf g)).filter
        (fun d => !wOkB w d))).countP (fun e => e.stage == "Extract" && e.subject == X) =
        (cities.filter (geoOkB g)).count X := by
      rw [List.countP_map, List.countP_filter, List.countP_map, List.count_eq_countP]
      refine List.countP_congr (fun c hc => ?_)
      constructor
      · intro hp
        simp only [Function.comp_apply, wErrOf, Bool.and_eq_true, beq_iff_eq,
          detailsOf_city] at hp
        rw [beq_iff_eq]
        exact hp.1.2
      · intro hp
        rw [beq_iff_eq] at hp
        subst hp
        simp [Function.comp, wErrOf, detailsOf_city, hw]
    rw [hgeoZero, hwCount, Nat.zero_add, List.count_filter hgeo]
    exact hX
  · rw [List.countP_eq_zero]
    intro r hrmem
    obtain ⟨d, hdmem, rfl⟩ := List.mem_map.mp hrmem
    obtain ⟨hdmem', hwok⟩ := List.mem_filter.mp hdmem
    obtain ⟨c, hc, rfl⟩ := List.mem_map.mp hdmem'
    rw [rowOf_city, detailsOf_city]
    intro hcx
    rw [beq_iff_eq] at hcx
    subst hcx
    rw [hw] at hwok
    simp at hwok
  · rw [hcomm, filter_wOk_erase g w X hw]
  · rw [List.filter_append, hcomm, geoErr_filter_erase g X cities,
      wErr_filter_erase g w X (cities.filter (geoOkB g))]

theorem claim_c3_witness :
    ([⟨"Extract", "Chicago", "Status Code: 404. Could not get weather."⟩] :
        List ErrRec).countP (fun e => e.stage == "Extract" && e.subject == "Chicago") = 1 ∧
    ([rowMontreal].countP (fun r => r.city == "Chicago")) = 0 ∧
    ([rowMontreal] : List WeatherRow) = [rowMontreal] ∧
    ([] : List ErrRec) =
      ([⟨"Extract", "Chicago", "Status Code: 404. Could not get weather."⟩] :
        List ErrRec).filter (fun e => !(e.subject == "Chicago")) :=
  claim_c3_weather_failure_isolated gDemo wDemo ["Montreal", "Chicago"] "Chicago"
    [rowMontreal] [rowMontreal]
    [⟨"Extract", "Chicago", "Status Code: 404. Could not get weather."⟩] []
    rfl rfl rfl rfl rfl
